import Mathlib

/-!
Verification of the scorelist routes of the projectFour backend
(`src/app/routes/scorelist_routes.js`).

The five Express handlers (index, show, create, update, destroy) are
embedded as pure Lean functions over an explicit store state (a list of
score records standing for the documents the ORM returns).  The helper
middleware that lives in `lib/` (handle404, requireOwnership,
remove_blank_fields) is not part of the provided sources and is modelled
from the specification; each such definition is marked in its doc
comment.
-/

namespace Scorelist

/-- A persisted score record: `id` assigned by the store, `owner` the id of
the creating caller, `score` the ranked numeric value, `title` standing for
the arbitrary caller-supplied attributes. -/
structure ScoreRecord where
  id : Nat
  owner : Nat
  score : Int
  title : String
  deriving DecidableEq

/-- A record as rendered by the leaderboard view: the score record together
with the derived, non-persisted `placement` attribute. -/
structure RankedRecord where
  record : ScoreRecord
  placement : Nat
  deriving DecidableEq

/-- The JSON payload nested under the `scorelist` envelope of a create or
update request.  Absent keys are `none`. -/
structure Payload where
  owner : Option Nat
  score : Option Int
  title : Option String
  deriving DecidableEq

/-- Embeds lines 42-44 of the index handler: `splice(0, 10)` keeps the first
ten records in store-return order when more than ten were found, and leaves
the array untouched otherwise. -/
def truncate10 (l : List ScoreRecord) : List ScoreRecord :=
  if l.length > 10 then l.take 10 else l

/-- The comparator of lines 45-47, `a.score - b.score`, orders records by
ascending score. -/
def scoreLE (a b : ScoreRecord) : Prop :=
  a.score ≤ b.score

instance : DecidableRel scoreLE :=
  fun a b => inferInstanceAs (Decidable (a.score ≤ b.score))

instance : IsTotal ScoreRecord scoreLE :=
  ⟨fun a b => Int.le_total a.score b.score⟩

instance : IsTrans ScoreRecord scoreLE :=
  ⟨fun _ _ _ h h2 => le_trans h h2⟩

/-- The `Array.prototype.sort` call of lines 45-47: a stable sort by
ascending score. -/
def sortByScore (l : List ScoreRecord) : List ScoreRecord :=
  List.insertionSort scoreLE l

/-- Annotates successive records with placements `j`, `j+1`, ...; the body of
the loop at lines 48-51 performs `scorelists[i].placement = i + 1`. -/
def attachPlacements : Nat → List ScoreRecord → List RankedRecord
  | _, [] => []
  | j, r :: rs => ⟨r, j⟩ :: attachPlacements (j + 1) rs

/-- The TypeError raised when the placement loop indexes past the end of the
array and assigns a property of `undefined`. -/
def faultMessage : String :=
  "TypeError: cannot set placement of undefined"

/-- Embeds the placement loop of lines 48-51: it always iterates `i = 0..9`,
so when the list holds fewer than ten records the iteration at `i = length`
dereferences `undefined` and throws, which the promise chain routes to
`catch(next)`. -/
def assignPlacements (l : List ScoreRecord) : Except String (List RankedRecord) :=
  if l.length < 10 then Except.error faultMessage
  else Except.ok (attachPlacements 1 l)

/-- Embeds the GET /scorelists handler body (lines 41-52) applied to the
array that `Scorelist.find()` resolved with: truncate, sort, then assign
placements. -/
def indexHandler (store : List ScoreRecord) : Except String (List RankedRecord) :=
  assignPlacements (sortByScore (truncate10 store))

/-- Errors a handler can hand to the Express error handler via
`next`. -/
inductive HandlerError where
  | missingEnvelope
  | notFound
  | notOwner
  | storeFailure
  deriving DecidableEq

/-- The response a handler produces: one of the success responses of the
five routes, or an error passed to the error-handling middleware. -/
inductive HttpOutcome where
  | okList (body : List RankedRecord)
  | okRecord (body : ScoreRecord)
  | created (body : ScoreRecord)
  | noContent
  | toErrorHandler (e : HandlerError)
  deriving DecidableEq

/-- Result of running a handler: the response sent, the resulting store
contents, and how many write operations (`create`, `updateOne`,
`deleteOne`) were issued to the store. -/
structure HandlerResult where
  response : HttpOutcome
  store : List ScoreRecord
  writes : Nat
  deriving DecidableEq

/-- The `Scorelist.findById` call: the first stored record whose id matches
the `:id` route parameter, if any. -/
def findById (store : List ScoreRecord) (tid : Nat) : Option ScoreRecord :=
  store.find? (fun r => r.id == tid)

/-- Modelled from the spec: `handle404` (from `lib/custom_errors`, not under
src/) fails the chain with a not-found error when the looked-up document is
absent and passes the document through otherwise. -/
def handle404 : Option ScoreRecord → Except HandlerError ScoreRecord
  | none => Except.error HandlerError.notFound
  | some r => Except.ok r

/-- Modelled from the spec: `requireOwnership` (from `lib/custom_errors`,
not under src/) throws an ownership error when the record's owner differs
from the authenticated caller's id, and is a no-op otherwise. -/
def requireOwnership (uid : Nat) (r : ScoreRecord) : Except HandlerError Unit :=
  if r.owner = uid then Except.ok () else Except.error HandlerError.notOwner

/-- Modelled from the spec: the `removeBlanks` middleware (from
`lib/remove_blank_fields`, not under src/) drops payload fields whose value
is the empty string; of the modelled fields only `title` is a string. -/
def removeBlanks (p : Payload) : Payload :=
  { p with title := match p.title with
      | some "" => none
      | t => t }

/-- The document-update semantics of `scorelist.updateOne(patch)`: fields
present in the patch overwrite the stored fields, absent fields are kept. -/
def applyUpdate (r : ScoreRecord) (p : Payload) : ScoreRecord :=
  { r with
    owner := p.owner.getD r.owner
    score := p.score.getD r.score
    title := p.title.getD r.title }

/-- A PATCH /scorelists/:id request: the authenticated caller's id, the
`:id` route parameter, and the body's `scorelist` envelope (`none` when the
envelope key is missing). -/
structure UpdateRequest where
  userId : Nat
  targetId : Nat
  body : Option Payload
  deriving DecidableEq

/-- Embeds the PATCH /scorelists/:id handler (lines 89-108).  With no
`scorelist` envelope, `delete req.body.scorelist.owner` throws synchronously
before any store call.  Otherwise the owner key is deleted from the payload,
the record is looked up, `handle404` and `requireOwnership` guard the
mutation, and `updateOne` is issued; `updateFails` models the store
rejecting the update, which the returned promise propagates to
`catch(next)`. -/
def updateHandler (store : List ScoreRecord) (req : UpdateRequest)
    (updateFails : Bool) : HandlerResult :=
  match req.body with
  | none => ⟨HttpOutcome.toErrorHandler HandlerError.missingEnvelope, store, 0⟩
  | some payload =>
    let patch := { removeBlanks payload with owner := none }
    match handle404 (findById store req.targetId) with
    | Except.error e => ⟨HttpOutcome.toErrorHandler e, store, 0⟩
    | Except.ok doc =>
      match requireOwnership req.userId doc with
      | Except.error e => ⟨HttpOutcome.toErrorHandler e, store, 0⟩
      | Except.ok _ =>
        if updateFails then
          ⟨HttpOutcome.toErrorHandler HandlerError.storeFailure, store, 1⟩
        else
          ⟨HttpOutcome.noContent,
            store.map (fun r => if r.id == req.targetId then applyUpdate r patch else r), 1⟩

/-- A DELETE /scorelists/:id request. -/
structure DeleteRequest where
  userId : Nat
  targetId : Nat
  deriving DecidableEq

/-- Embeds the DELETE /scorelists/:id handler (lines 112-125).  The source
calls `scorelist.deleteOne()` without returning the promise (line 119), so
the 204 response is sent whatever the outcome of the deletion and a
`deleteOne` rejection never reaches `catch(next)`; `deleteFails` models the
store rejecting the deletion, in which case the record stays in the store
while the client still receives 204. -/
def deleteHandler (store : List ScoreRecord) (req : DeleteRequest)
    (deleteFails : Bool) : HandlerResult :=
  match handle404 (findById store req.targetId) with
  | Except.error e => ⟨HttpOutcome.toErrorHandler e, store, 0⟩
  | Except.ok doc =>
    match requireOwnership req.userId doc with
    | Except.error e => ⟨HttpOutcome.toErrorHandler e, store, 0⟩
    | Except.ok _ =>
      if deleteFails then ⟨HttpOutcome.noContent, store, 1⟩
      else ⟨HttpOutcome.noContent, store.eraseP (fun r => r.id == req.targetId), 1⟩

/-- A POST /scorelists request: the authenticated caller's id and the body's
`scorelist` envelope (`none` when the envelope key is missing). -/
structure CreateRequest where
  userId : Nat
  body : Option Payload
  deriving DecidableEq

/-- The document the store builds for `Scorelist.create`: the store assigns
`newId`, the remaining fields come from the payload. -/
def mkRecord (newId : Nat) (p : Payload) : ScoreRecord :=
  ⟨newId, p.owner.getD 0, p.score.getD 0, p.title.getD ""⟩

/-- Embeds the POST /scorelists handler (lines 72-85).  With no `scorelist`
envelope, `req.body.scorelist.owner = req.user.id` throws synchronously
before any store call.  Otherwise the payload's owner is overwritten with
the caller's id and the record is created and returned with 201. -/
def createHandler (store : List ScoreRecord) (req : CreateRequest)
    (newId : Nat) : HandlerResult :=
  match req.body with
  | none => ⟨HttpOutcome.toErrorHandler HandlerError.missingEnvelope, store, 0⟩
  | some payload =>
    let doc := mkRecord newId { payload with owner := some req.userId }
    ⟨HttpOutcome.created doc, store ++ [doc], 1⟩

/-- Embeds the GET /scorelists/:id handler (lines 60-68): look the record
up, apply `handle404`, and respond 200 with the record.  No ownership check
appears in this handler, so the caller's id never influences a successful
fetch. -/
def showHandler (store : List ScoreRecord) (_userId targetId : Nat) : HandlerResult :=
  match handle404 (findById store targetId) with
  | Except.error _e => ⟨HttpOutcome.toErrorHandler HandlerError.notFound, store, 0⟩
  | Except.ok doc => ⟨HttpOutcome.okRecord doc, store, 0⟩

/-- The kind of operation a registered route serves. -/
inductive RouteAction where
  | index
  | fetchOne
  | create
  | update
  | destroy
  deriving DecidableEq

/-- A route registration: method, path, whether `requireToken` is installed
on it, and the operation it serves. -/
structure Route where
  verb : String
  path : String
  requiresToken : Bool
  action : RouteAction
  deriving DecidableEq

/-- Embeds the five router registrations: only GET /scorelists (line 32)
omits `requireToken`; the show, create, update and destroy registrations
(lines 60, 72, 89, 112) all pass it. -/
def scorelistRoutes : List Route :=
  [ ⟨"GET", "/scorelists", false, RouteAction.index⟩,
    ⟨"GET", "/scorelists/:id", true, RouteAction.fetchOne⟩,
    ⟨"POST", "/scorelists", true, RouteAction.create⟩,
    ⟨"PATCH", "/scorelists/:id", true, RouteAction.update⟩,
    ⟨"DELETE", "/scorelists/:id", true, RouteAction.destroy⟩ ]

/-- Eleven records in strictly descending score order: record `k + 1`
carries score `11 - k`, so the best (lowest) score 1 belongs to the last
record in store-return order. -/
def descStore : List ScoreRecord :=
  (List.range 11).map (fun k => ⟨k + 1, 0, 11 - (k : Int), ""⟩)

/-- The record of `descStore` with the best (lowest) score. -/
def bestRecord : ScoreRecord :=
  ⟨11, 0, 1, ""⟩

/-- The leaderboard the index handler computes for `descStore`. -/
def descOut : List RankedRecord :=
  attachPlacements 1 (sortByScore (truncate10 descStore))

/-- A three-record store, below the ten the placement loop addresses. -/
def smallStore : List ScoreRecord :=
  [⟨1, 0, 5, ""⟩, ⟨2, 0, 3, ""⟩, ⟨3, 0, 9, ""⟩]

/-- A one-record store whose record is owned by caller 7. -/
def guardStore : List ScoreRecord :=
  [⟨1, 7, 5, ""⟩]

/-- An update payload that tries to reassign the owner. -/
def somePayload : Payload :=
  ⟨some 5, some 100, some "hi"⟩

theorem attachPlacements_map_record (j : Nat) (l : List ScoreRecord) :
    (attachPlacements j l).map RankedRecord.record = l := by
  induction l generalizing j with
  | nil => rfl
  | cons r rs ih => simp [attachPlacements, ih]

theorem attachPlacements_length (j : Nat) (l : List ScoreRecord) :
    (attachPlacements j l).length = l.length := by
  induction l generalizing j with
  | nil => rfl
  | cons r rs ih => simp [attachPlacements, ih]

theorem attachPlacements_get (l : List ScoreRecord) (j i : Nat)
    (h : i < (attachPlacements j l).length) :
    ((attachPlacements j l).get ⟨i, h⟩).placement = j + i := by
  induction l generalizing j i with
  | nil => simp [attachPlacements] at h
  | cons r rs ih =>
    cases i with
    | zero => rfl
    | succ n =>
      have hn : n < (attachPlacements (j + 1) rs).length := by
        simpa [attachPlacements] using Nat.lt_of_succ_lt_succ h
      have := ih (j + 1) n hn
      simpa [attachPlacements, Nat.add_assoc, Nat.add_comm 1 n] using this

theorem sortByScore_perm (l : List ScoreRecord) : (sortByScore l).Perm l :=
  List.perm_insertionSort scoreLE l

theorem sortByScore_length (l : List ScoreRecord) :
    (sortByScore l).length = l.length :=
  (sortByScore_perm l).length_eq

theorem sortByScore_sorted (l : List ScoreRecord) :
    (sortByScore l).Pairwise scoreLE :=
  List.sorted_insertionSort scoreLE l

theorem truncate10_sublist (l : List ScoreRecord) : List.Sublist (truncate10 l) l := by
  unfold truncate10
  by_cases h : l.length > 10
  · rw [if_pos h]; exact List.take_sublist 10 l
  · rw [if_neg h]

theorem truncate10_length_le (l : List ScoreRecord) :
    (truncate10 l).length ≤ 10 := by
  unfold truncate10
  by_cases h : l.length > 10
  · rw [if_pos h, List.length_take]; exact Nat.min_le_left 10 l.length
  · rw [if_neg h]; omega

theorem truncate10_eq_take (l : List ScoreRecord) (h : 10 < l.length) :
    truncate10 l = l.take 10 :=
  if_pos h

theorem attachPlacements_pairwise {R : ScoreRecord → ScoreRecord → Prop} :
    ∀ {l : List ScoreRecord}, l.Pairwise R → ∀ j,
      (attachPlacements j l).Pairwise (fun a b : RankedRecord => R a.record b.record) := by
  intro l h
  induction h with
  | nil => intro j; exact List.Pairwise.nil
  | cons hr hp ih =>
    intro j
    refine List.Pairwise.cons ?_ (ih (j + 1))
    intro x hx
    apply hr
    have hm : x.record ∈ (attachPlacements (j + 1) _).map RankedRecord.record :=
      List.mem_map_of_mem RankedRecord.record hx
    rwa [attachPlacements_map_record] at hm

theorem indexHandler_ok_inv (store : List ScoreRecord) (out : List RankedRecord)
    (h : indexHandler store = Except.ok out) :
    out = attachPlacements 1 (sortByScore (truncate10 store)) ∧
      ¬ (sortByScore (truncate10 store)).length < 10 := by
  unfold indexHandler assignPlacements at h
  by_cases hc : (sortByScore (truncate10 store)).length < 10
  · rw [if_pos hc] at h; cases h
  · rw [if_neg hc] at h
    exact ⟨(Except.ok.inj h).symm, hc⟩

/-- C1: when the store returns more than ten records, the index handler
truncates to the first ten records in store-return order before sorting by
score, so the returned leaderboard consists exactly of the first ten input
records; on the concrete eleven-record store in descending-score order, the
record with the best (lowest) score is excluded from the leaderboard. -/
theorem scorelist_C1 :
    (∀ store : List ScoreRecord, 10 < store.length →
        ∃ out, indexHandler store = Except.ok out ∧
          (out.map RankedRecord.record).Perm (store.take 10)) ∧
      descStore.length = 11 ∧
      List.Pairwise (fun a b : ScoreRecord => b.score < a.score) descStore ∧
      bestRecord ∈ descStore ∧
      (∀ r ∈ descStore, bestRecord.score ≤ r.score) ∧
      ∀ out, indexHandler descStore = Except.ok out →
        bestRecord ∉ out.map RankedRecord.record := by
  constructor
  · intro store h
    have ht : truncate10 store = store.take 10 := truncate10_eq_take store h
    have hlen : (sortByScore (truncate10 store)).length = 10 := by
      rw [sortByScore_length, ht, List.length_take]
      exact Nat.min_eq_left (by omega)
    refine ⟨attachPlacements 1 (sortByScore (truncate10 store)), ?_, ?_⟩
    · unfold indexHandler assignPlacements
      rw [if_neg (by omega)]
    · rw [attachPlacements_map_record, ht]
      exact sortByScore_perm (store.take 10)
  · refine ⟨by decide, by decide, by decide, by decide, ?_⟩
    intro out hout
    have hval : indexHandler descStore = Except.ok descOut := rfl
    rw [hval] at hout
    have he : descOut = out := Except.ok.inj hout
    rw [← he]
    decide

/-- Witness for C1: on the concrete eleven-record descending store, the
index handler succeeds, its leaderboard is a permutation of the first ten
input records, and the best-score record is missing from it. -/
theorem scorelist_C1_witness :
    indexHandler descStore = Except.ok descOut ∧
      (descOut.map RankedRecord.record).Perm (descStore.take 10) ∧
      bestRecord ∉ descOut.map RankedRecord.record := by
  obtain ⟨out, h1, h2⟩ := scorelist_C1.1 descStore (by decide)
  have h0 : indexHandler descStore = Except.ok descOut := rfl
  rw [h0] at h1
  have he : descOut = out := Except.ok.inj h1
  rw [← he] at h2
  exact ⟨h0, h2, scorelist_C1.2.2.2.2.2 descOut h0⟩

/-- C2 (counter-evidence, code bug): the placement loop always addresses
indices 0 through 9, so on a store with fewer than ten records — here the
empty store and a three-record store — the index handler faults with a
TypeError instead of returning that many ranked records. -/
theorem scorelist_C2 :
    indexHandler ([] : List ScoreRecord) = Except.error faultMessage ∧
      indexHandler smallStore = Except.error faultMessage ∧
      smallStore.length = 3 := by
  exact ⟨rfl, rfl, rfl⟩

/-- C4: whenever the index handler returns a leaderboard, it holds at most
ten records, whatever the size of the input collection. -/
theorem scorelist_C4 (store : List ScoreRecord) (out : List RankedRecord)
    (hok : indexHandler store = Except.ok out) : out.length ≤ 10 := by
  obtain ⟨ho, _⟩ := indexHandler_ok_inv store out hok
  rw [ho, attachPlacements_length, sortByScore_length]
  exact truncate10_length_le store

/-- Witness for C4: the leaderboard computed for the concrete eleven-record
store has at most ten entries. -/
theorem scorelist_C4_witness : descOut.length ≤ 10 :=
  scorelist_C4 descStore descOut rfl

/-- C3: whenever the input collection has pairwise-distinct scores and the
index handler returns a leaderboard, that leaderboard is sorted in strictly
ascending score order and the entry at 0-based index `i` carries placement
`i + 1`. -/
theorem scorelist_C3 (store : List ScoreRecord) (out : List RankedRecord)
    (hdist : List.Pairwise (fun a b : ScoreRecord => a.score ≠ b.score) store)
    (hok : indexHandler store = Except.ok out) :
    List.Pairwise (fun a b : RankedRecord => a.record.score < b.record.score) out ∧
      ∀ i (h : i < out.length), (out.get ⟨i, h⟩).placement = i + 1 := by
  obtain ⟨ho, _⟩ := indexHandler_ok_inv store out hok
  subst ho
  have hsorted : (sortByScore (truncate10 store)).Pairwise scoreLE :=
    sortByScore_sorted (truncate10 store)
  have hne_t : (truncate10 store).Pairwise (fun a b : ScoreRecord => a.score ≠ b.score) :=
    List.Pairwise.sublist (truncate10_sublist store) hdist
  have hne : (sortByScore (truncate10 store)).Pairwise
      (fun a b : ScoreRecord => a.score ≠ b.score) :=
    ((sortByScore_perm (truncate10 store)).pairwise_iff (fun h => h.symm)).mpr hne_t
  have hlt : (sortByScore (truncate10 store)).Pairwise
      (fun a b : ScoreRecord => a.score < b.score) :=
    (hsorted.and hne).imp (fun h => lt_of_le_of_ne h.1 h.2)
  constructor
  · exact attachPlacements_pairwise hlt 1
  · intro i h
    rw [attachPlacements_get (sortByScore (truncate10 store)) 1 i h, Nat.add_comm]

/-- Witness for C3: the leaderboard computed for the concrete eleven-record
store with distinct scores is strictly score-sorted and its first entry has
placement 1. -/
theorem scorelist_C3_witness :
    List.Pairwise (fun a b : RankedRecord => a.record.score < b.record.score) descOut ∧
      (descOut.get ⟨0, by decide⟩).placement = 1 :=
  ⟨(scorelist_C3 descStore descOut (by decide) rfl).1,
    (scorelist_C3 descStore descOut (by decide) rfl).2 0 (by decide)⟩

theorem applyUpdate_ownerless (r : ScoreRecord) (p : Payload) (hp : p.owner = none) :
    (applyUpdate r p).id = r.id ∧ (applyUpdate r p).owner = r.owner := by
  simp [applyUpdate, hp]

theorem map_update_preserves_idOwner (store : List ScoreRecord) (tid : Nat)
    (p : Payload) (hp : p.owner = none) :
    (store.map (fun r => if r.id == tid then applyUpdate r p else r)).map
        (fun r => (r.id, r.owner)) =
      store.map (fun r => (r.id, r.owner)) := by
  induction store with
  | nil => rfl
  | cons r rs ih =>
    by_cases h : r.id == tid
    · simp only [List.map_cons, if_pos h]
      rw [ih]
      have ha := applyUpdate_ownerless r p hp
      rw [ha.1, ha.2]
    · simp only [List.map_cons, if_neg h]
      rw [ih]

/-- C5: the PATCH handler deletes any `owner` key from the update payload
before it reaches the store, so no update request changes the owner (or the
id) of any stored record, whatever owner value the caller supplied. -/
theorem scorelist_C5 (store : List ScoreRecord) (req : UpdateRequest)
    (updateFails : Bool) :
    ((updateHandler store req updateFails).store).map (fun r => (r.id, r.owner)) =
      store.map (fun r => (r.id, r.owner)) := by
  obtain ⟨uid, tid, body⟩ := req
  cases body with
  | none => rfl
  | some payload =>
    cases hh : handle404 (findById store tid) with
    | error e => simp [updateHandler, hh]
    | ok doc =>
      cases ho : requireOwnership uid doc with
      | error e => simp [updateHandler, hh, ho]
      | ok u =>
        cases updateFails with
        | true => simp [updateHandler, hh, ho]
        | false =>
          simp only [updateHandler, hh, ho]
          exact map_update_preserves_idOwner store tid
            { removeBlanks payload with owner := none } rfl

/-- C6: for update and for delete, when the looked-up record is absent or
the authenticated caller is not its owner, the handler short-circuits before
any write: no `updateOne` or `deleteOne` is issued and the store is left
unchanged. -/
theorem scorelist_C6 (store : List ScoreRecord) (uid tid : Nat)
    (body : Option Payload) (fails : Bool)
    (hguard : findById store tid = none ∨
      ∀ doc ∈ store, doc.id = tid → doc.owner ≠ uid) :
    ((updateHandler store ⟨uid, tid, body⟩ fails).writes = 0 ∧
        (updateHandler store ⟨uid, tid, body⟩ fails).store = store) ∧
      ((deleteHandler store ⟨uid, tid⟩ fails).writes = 0 ∧
        (deleteHandler store ⟨uid, tid⟩ fails).store = store) := by
  have hdel : ∀ doc, findById store tid = some doc → doc.owner ≠ uid := by
    intro doc hfind
    cases hguard with
    | inl h => rw [h] at hfind; cases hfind
    | inr h =>
      have hmem : doc ∈ store := List.mem_of_find?_eq_some hfind
      have hid : doc.id = tid := by
        have hb := List.find?_some hfind
        exact eq_of_beq hb
      exact h doc hmem hid
  constructor
  · cases body with
    | none => exact ⟨rfl, rfl⟩
    | some payload =>
      cases hfind : findById store tid with
      | none => constructor <;> simp [updateHandler, handle404, hfind]
      | some doc =>
        have hno : doc.owner ≠ uid := hdel doc hfind
        constructor <;> simp [updateHandler, handle404, requireOwnership, hfind, hno]
  · cases hfind : findById store tid with
    | none => constructor <;> simp [deleteHandler, handle404, hfind]
    | some doc =>
      have hno : doc.owner ≠ uid := hdel doc hfind
      constructor <;> simp [deleteHandler, handle404, requireOwnership, hfind, hno]

/-- Witness for C6: caller 5 attempts to update and delete the record owned
by caller 7; neither handler issues a write and the store is unchanged. -/
theorem scorelist_C6_witness :
    ((updateHandler guardStore ⟨5, 1, some somePayload⟩ false).writes = 0 ∧
        (updateHandler guardStore ⟨5, 1, some somePayload⟩ false).store = guardStore) ∧
      ((deleteHandler guardStore ⟨5, 1⟩ false).writes = 0 ∧
        (deleteHandler guardStore ⟨5, 1⟩ false).store = guardStore) :=
  scorelist_C6 guardStore 5 1 (some somePayload) false (Or.inr (by decide))

/-- C7 (counter-evidence, code bug): the delete handler calls
`scorelist.deleteOne()` without returning its promise (line 119), so when
the store rejects the deletion the record stays in the store and the client
still receives 204; by contrast a failing `updateOne` in the update handler
does propagate to the error handler. -/
theorem scorelist_C7 :
    deleteHandler guardStore ⟨7, 1⟩ true =
        ⟨HttpOutcome.noContent, guardStore, 1⟩ ∧
      (updateHandler guardStore ⟨7, 1, some somePayload⟩ true).response =
        HttpOutcome.toErrorHandler HandlerError.storeFailure := by
  exact ⟨rfl, rfl⟩

/-- C8: a create request with a `scorelist` envelope responds 201 with the
created record, whose owner is the authenticated caller's id — overriding
any owner value in the payload — and the record is appended to the store. -/
theorem scorelist_C8 (store : List ScoreRecord) (uid newId : Nat) (payload : Payload) :
    ∃ doc, (createHandler store ⟨uid, some payload⟩ newId).response =
        HttpOutcome.created doc ∧
      doc.owner = uid ∧
      (createHandler store ⟨uid, some payload⟩ newId).store = store ++ [doc] ∧
      (createHandler store ⟨uid, some payload⟩ newId).writes = 1 :=
  ⟨mkRecord newId { payload with owner := some uid }, rfl, rfl, rfl, rfl⟩

/-- C9: of the five registered routes only GET /scorelists omits
`requireToken`, and the fetch-one handler performs no ownership check: any
caller id obtains 200 with the record whenever the record exists. -/
theorem scorelist_C9 :
    scorelistRoutes.map (fun rt => (rt.action, rt.requiresToken)) =
        [(RouteAction.index, false), (RouteAction.fetchOne, true),
          (RouteAction.create, true), (RouteAction.update, true),
          (RouteAction.destroy, true)] ∧
      ∀ (store : List ScoreRecord) (uid tid : Nat) (doc : ScoreRecord),
        findById store tid = some doc →
          (showHandler store uid tid).response = HttpOutcome.okRecord doc ∧
            (showHandler store uid tid).writes = 0 := by
  refine ⟨rfl, ?_⟩
  intro store uid tid doc h
  constructor <;> simp [showHandler, handle404, h]

/-- Witness for C9: caller 5 fetches the record owned by caller 99 and
receives it with status 200. -/
theorem scorelist_C9_witness :
    (showHandler [⟨1, 99, 5, ""⟩] 5 1).response = HttpOutcome.okRecord ⟨1, 99, 5, ""⟩ ∧
      (showHandler [⟨1, 99, 5, ""⟩] 5 1).writes = 0 :=
  scorelist_C9.2 [⟨1, 99, 5, ""⟩] 5 1 ⟨1, 99, 5, ""⟩ rfl

/-- C10: a create or update request whose body lacks the `scorelist`
envelope faults before any store operation: the handler hands the error to
the error handler, issues no write, and leaves the store unchanged. -/
theorem scorelist_C10 (store : List ScoreRecord) (uid tid newId : Nat) (fails : Bool) :
    updateHandler store ⟨uid, tid, none⟩ fails =
        ⟨HttpOutcome.toErrorHandler HandlerError.missingEnvelope, store, 0⟩ ∧
      createHandler store ⟨uid, none⟩ newId =
        ⟨HttpOutcome.toErrorHandler HandlerError.missingEnvelope, store, 0⟩ :=
  ⟨rfl, rfl⟩

end Scorelist
